import Mathlib

/-!
Shallow embedding of the streaming query session engine of
`src/intelli-policy/src/App.jsx` (the `ChatModule` component).

Texts are modelled as `List Char` (abbreviated `Str`); JS numbers occurring in
the payloads (confidence, similarity) are modelled as exact rationals `ℚ`;
fields the code guards with `|| 0` or `Array.isArray` are modelled as `Option`.
React state setters become record updates on an explicit `AppState`; the local
variables captured by one `handleSend` closure (`hasReceivedData`,
`isCompleted`, `accumulatedText`, the `EventSource`) become a `StreamState`;
statements are interpreted sequentially in source order.
-/

namespace IntelliPolicy

/-- Texts are lists of characters (JS strings, indexed per code unit;
all characters appearing here are single UTF-16 units). -/
abbrev Str := List Char

/-- Message role: the code uses `type: 'user'` / `type: 'bot'`. -/
inductive Role where
  | user
  | bot
deriving DecidableEq, Repr

/-- One transcript entry, `{ id, type, text }` in the code. -/
structure Msg where
  id : Nat
  role : Role
  text : Str
deriving DecidableEq, Repr

/-- One element of `result.sources`; `similarity` is `none` when the JSON
field is absent/null (the code coalesces it with `|| 0`). -/
structure SourceItem where
  source : Str
  similarity : Option ℚ
deriving DecidableEq

/-- The `complete` payload `{answer, confidence, sources}`; `confidence` is
`none` when absent/null, `sources` is `none` when not an array. -/
structure ResultPayload where
  answer : Str
  confidence : Option ℚ
  sources : Option (List SourceItem)
deriving DecidableEq

/-- The user location object; `district` may be null. -/
structure Location where
  province : Option Str
  city : Option Str
  district : Option Str
deriving DecidableEq

/-- The React state of `ChatModule` relevant to the session engine, plus the
typewriter refs: `typingIndex : useRef`, and `typingTimer` models
`typingInterval.current` — `some m` when an interval revealing `m` is armed. -/
structure AppState where
  messages : List Msg
  input : Str
  isThinking : Bool
  typingMessage : Str
  isTyping : Bool
  typingIndex : Nat
  typingTimer : Option Str
deriving DecidableEq

/-- JS `message.charAt(i)`: the one-character string at `i`, or `""` when out
of range. -/
def charAt (s : Str) (i : Nat) : Str :=
  match s.get? i with
  | some c => [c]
  | none => []

/-- `clearTyping` (App.jsx 472-480): clear the interval, drop the typing flag
and buffer, reset the index. -/
def clearTyping (app : AppState) : AppState :=
  { app with typingTimer := none, isTyping := false, typingMessage := [], typingIndex := 0 }

/-- `typeMessage(message)` (App.jsx 483-497): clear any prior run, raise
`isTyping`, empty the buffer, reset the index, and arm the interval that will
reveal `message`. -/
def typeMessage (message : Str) (app : AppState) : AppState :=
  let app := clearTyping app
  { app with isTyping := true, typingMessage := [], typingIndex := 0,
             typingTimer := some message }

/-- One firing of the armed interval (the callback at App.jsx 489-496): if the
index is below the message length, append `message.charAt(index)` and
increment; otherwise `clearTyping`. No-op when no interval is armed. -/
def typingTick (app : AppState) : AppState :=
  match app.typingTimer with
  | none => app
  | some message =>
    if app.typingIndex < message.length then
      { app with typingMessage := app.typingMessage ++ charAt message app.typingIndex,
                 typingIndex := app.typingIndex + 1 }
    else
      clearTyping app

/-- `k` firings of the typewriter interval. -/
def tickN : Nat → AppState → AppState
  | 0, app => app
  | k + 1, app => tickN k (typingTick app)

/-- Decimal digit character. -/
def digitChar (n : Nat) : Char := Char.ofNat (48 + n)

/-- Decimal rendering of a natural number, accumulator form; the first
argument is structural fuel (`n` itself is always enough, since `n ≥` its
digit count). -/
def natToStrAux : Nat → Nat → Str → Str
  | 0, _, acc => acc
  | fuel + 1, n, acc =>
    if n = 0 then acc
    else natToStrAux fuel (n / 10) (digitChar (n % 10) :: acc)

/-- Decimal rendering of a natural number (JS `toString` on an integer-valued
number). -/
def natToStr (n : Nat) : Str :=
  if n = 0 then ['0'] else natToStrAux n n []

/-- JS rendering of the number `n / 10` (the code only ever divides a
`Math.round` result by 10): an integer prints with no fraction, otherwise one
decimal digit is printed. -/
def formatTenthsNat (m : Nat) : Str :=
  if m % 10 = 0 then natToStr (m / 10) else natToStr (m / 10) ++ ('.' :: natToStr (m % 10))

/-- Signed version of `formatTenthsNat` (negative values cannot arise from the
payloads the claims use, but the model is total). -/
def formatTenths (n : ℤ) : Str :=
  if n < 0 then '-' :: formatTenthsNat n.natAbs else formatTenthsNat n.toNat

/-- The composite `Math.round(x * 1000)` on an exact rational (JS `Math.round`
is floor of `x + 1/2`), computed from the reduced numerator and denominator so
that the kernel can evaluate it; `roundPermille_eq_floor` checks it against
the textbook form `⌊1000 * q + 1/2⌋`. -/
def roundPermille (q : ℚ) : ℤ := (2000 * q.num + q.den) / (2 * q.den)

/-- `Math.round(((result.confidence || 0) * 1000)) / 10`, kept as tenths of a
percent (an integer), to be rendered by `formatTenths`. -/
def confidenceTenths (c : Option ℚ) : ℤ := roundPermille (c.getD 0)

/-- One line of the sources section on the streaming path (App.jsx 640):
`i+1. source (相关度: p%)` with `p = Math.round((similarity || 0)*1000)/10`. -/
def sourceLine (i : Nat) (s : SourceItem) : Str :=
  natToStr (i + 1) ++ ". ".toList ++ s.source ++ " (相关度: ".toList
    ++ formatTenths (roundPermille (s.similarity.getD 0)) ++ "%)".toList

/-- The `sourcesText` expression of the streaming path (App.jsx 639-641):
empty unless `sources` is a non-empty array; otherwise a header and the first
two sources, one line each. -/
def sourcesText (sources : Option (List SourceItem)) : Str :=
  match sources with
  | none => []
  | some ss =>
    if ss.isEmpty then []
    else
      "\n\n参考来源:\n".toList
        ++ (List.intercalate ['\n'] ((ss.take 2).enum.map (fun p => sourceLine p.1 p.2)))

/-- The `reply` template of the streaming `complete` branch (App.jsx 642):
`answer + "\n\n置信度: " + confidencePercent + "%" + sourcesText`. -/
def composeReply (r : ResultPayload) : Str :=
  r.answer ++ "\n\n置信度: ".toList ++ formatTenths (confidenceTenths r.confidence)
    ++ ['%'] ++ sourcesText r.sources

/-- One line of the sources section on the fallback path (App.jsx 678); the
code duplicates the streaming formula textually. -/
def fallbackSourceLine (i : Nat) (s : SourceItem) : Str :=
  natToStr (i + 1) ++ ". ".toList ++ s.source ++ " (相关度: ".toList
    ++ formatTenths (roundPermille (s.similarity.getD 0)) ++ "%)".toList

/-- The `sourcesText` expression of the fallback path (App.jsx 677-679). -/
def fallbackSourcesText (sources : Option (List SourceItem)) : Str :=
  match sources with
  | none => []
  | some ss =>
    if ss.isEmpty then []
    else
      "\n\n参考来源:\n".toList
        ++ (List.intercalate ['\n'] ((ss.take 2).enum.map (fun p => fallbackSourceLine p.1 p.2)))

/-- The `reply` template of the fallback success branch (App.jsx 680). -/
def fallbackReply (r : ResultPayload) : Str :=
  r.answer ++ "\n\n置信度: ".toList ++ formatTenths (confidenceTenths r.confidence)
    ++ ['%'] ++ fallbackSourcesText r.sources

/-- A `StreamEvent` as parsed from one SSE frame (App.jsx 623-625): the
`data.type` switch distinguishes `chunk`, `complete`, `error`. -/
inductive StreamEvent where
  | chunk (content : Str)
  | complete (result : ResultPayload)
  | error (message : Str)
deriving DecidableEq

/-- The local state captured by one `handleSend` closure (App.jsx 594-619):
the submitted `text`, the flags `hasReceivedData` / `isCompleted`, the running
`accumulatedText`, and whether `eventSource.close()` has been called. -/
structure StreamState where
  question : Str
  hasReceivedData : Bool
  isCompleted : Bool
  accumulatedText : Str
  closed : Bool
deriving DecidableEq

/-- The closure state right after `new EventSource(streamUrl)` (App.jsx
616-619). -/
def newStream (q : Str) : StreamState :=
  { question := q, hasReceivedData := false, isCompleted := false,
    accumulatedText := [], closed := false }

/-- The body of the fallback `fetch` POST to `/api/query` (App.jsx 664-671):
`{question: text, return_sources: true, location: userLocation}`. -/
structure FallbackRequest where
  question : Str
  return_sources : Bool
  location : Option Location
deriving DecidableEq

/-- The eventual outcome of the fallback `fetch`: `success data` when the
response was ok and parsed, `failure` for a network error or non-ok status
(the code turns `!res.ok` into a thrown error caught by `.catch`). -/
inductive FallbackOutcome where
  | success (data : ResultPayload)
  | failure
deriving DecidableEq

/-- The generic failure text of the fallback `.catch` branch (App.jsx 684). -/
def unavailableText : Str := "抱歉，服务暂时不可用，请稍后重试。".toList

/-- The `eventSource.onmessage` handler (App.jsx 621-655) for one delivered
event: raises `hasReceivedData`, then switches on the event type. `now` stands
for `Date.now()` at this callback. -/
def onmessageEvent (now : Nat) (ev : StreamEvent) (ss : StreamState) (app : AppState) :
    StreamState × AppState :=
  let ss := { ss with hasReceivedData := true }
  match ev with
  | .chunk content =>
    let acc := ss.accumulatedText ++ content
    ({ ss with accumulatedText := acc },
     { app with typingMessage := acc, isTyping := true })
  | .complete r =>
    let app := clearTyping app
    ({ ss with isCompleted := true, closed := true },
     { app with messages := app.messages ++ [⟨now + 1, Role.bot, composeReply r⟩],
                isThinking := false })
  | .error m =>
    let app := clearTyping app
    ({ ss with isCompleted := true, closed := true },
     { app with messages := app.messages ++ [⟨now + 1, Role.bot, "错误: ".toList ++ m⟩],
                isThinking := false })

/-- The `eventSource.onerror` handler (App.jsx 657-691), with the fallback
`fetch` resolved to its eventual `FallbackOutcome`: close the source; if no
data was ever received and the query is not completed, clear the typewriter
and issue the one-shot fallback request (success appends the composed reply,
failure appends the service-unavailable notice, `finally` ends the thinking
state); if data was received but the query is not completed, only end the
thinking state; otherwise do nothing further. Returns the new stream state,
the new app state, and the list of fallback requests issued. -/
def onerrorEvent (now : Nat) (out : FallbackOutcome) (loc : Option Location)
    (ss : StreamState) (app : AppState) :
    StreamState × AppState × List FallbackRequest :=
  let ss := { ss with closed := true }
  if !ss.hasReceivedData && !ss.isCompleted then
    let app := clearTyping app
    let req : FallbackRequest := { question := ss.question, return_sources := true, location := loc }
    match out with
    | .success data =>
      (ss, { app with messages := app.messages ++ [⟨now + 1, Role.bot, fallbackReply data⟩],
                      isThinking := false }, [req])
    | .failure =>
      (ss, { app with messages := app.messages ++ [⟨now + 1, Role.bot, unavailableText⟩],
                      isThinking := false }, [req])
  else if !ss.isCompleted then
    (ss, { app with isThinking := false }, [])
  else
    (ss, app, [])

/-- JS `text.trim()`: strip whitespace from both ends. -/
def trim (s : Str) : Str :=
  ((s.dropWhile Char.isWhitespace).reverse.dropWhile Char.isWhitespace).reverse

/-- The whole component state: the React state, the cached `userLocation`, the
streams created so far (indexed by creation order; each entry is one
`handleSend` closure), the fallback requests issued so far, and a clock
standing in for `Date.now()`. -/
structure World where
  app : AppState
  location : Option Location
  streams : List StreamState
  fallbackRequests : List FallbackRequest
  time : Nat
deriving DecidableEq

/-- The synchronous part of `handleSend(text)` (App.jsx 594-619): reject a
blank `text`; otherwise append the user message, clear the input, raise the
thinking flag, and open a new `EventSource` with fresh closure flags. Note the
code does nothing to any previously opened stream. -/
def handleSend (text : Str) (w : World) : World :=
  if (trim text).isEmpty then w
  else
    { w with
      app := { w.app with
        messages := w.app.messages ++ [⟨w.time, Role.user, text⟩],
        input := [],
        isThinking := true },
      streams := w.streams ++ [newStream text],
      time := w.time + 2 }

/-- One schedulable occurrence in the component's event loop. -/
inductive Action where
  | send (text : Str)
  | deliver (sid : Nat) (ev : StreamEvent)
  | transportError (sid : Nat) (out : FallbackOutcome)
  | tick
deriving DecidableEq

/-- Event-loop semantics: `send` runs `handleSend`; `deliver` runs
`onmessage` of stream `sid` (an `EventSource` delivers nothing once closed);
`transportError` runs `onerror` of stream `sid` (likewise gated on the source
being open); `tick` fires the typewriter interval once. -/
def step (w : World) (a : Action) : World :=
  match a with
  | .send text => handleSend text w
  | .deliver sid ev =>
    match w.streams.get? sid with
    | none => w
    | some ss =>
      if ss.closed then w
      else
        let p := onmessageEvent w.time ev ss w.app
        { w with app := p.2, streams := w.streams.set sid p.1, time := w.time + 2 }
  | .transportError sid out =>
    match w.streams.get? sid with
    | none => w
    | some ss =>
      if ss.closed then w
      else
        let p := onerrorEvent w.time out w.location ss w.app
        { w with app := p.2.1, streams := w.streams.set sid p.1,
                 fallbackRequests := w.fallbackRequests ++ p.2.2,
                 time := w.time + 2 }
  | .tick => { w with app := typingTick w.app }

/-- Run a list of scheduled occurrences from a world. -/
def run (w : World) (acts : List Action) : World := acts.foldl step w

/-- The initial `ChatModule` state (App.jsx 416-421): one greeting bot
message, empty input, not thinking, typewriter idle, location as resolved by
the geolocation effect. -/
def initWorld (greeting : Str) (loc : Option Location) : World :=
  { app := { messages := [⟨1, Role.bot, greeting⟩], input := [], isThinking := false,
             typingMessage := [], isTyping := false, typingIndex := 0, typingTimer := none },
    location := loc, streams := [], fallbackRequests := [], time := 2 }

/-- Deliver a list of `chunk` events in order to one stream's `onmessage`
handler (the `chunk` branch never reads the clock, so it is passed as 0). -/
def deliverChunks (cs : List Str) (p : StreamState × AppState) : StreamState × AppState :=
  match cs with
  | [] => p
  | c :: rest => deliverChunks rest (onmessageEvent 0 (.chunk c) p.1 p.2)

/-- A terminal outcome for one stream: an application-level `complete` or
`error` frame through `onmessage`, or a transport-level failure through
`onerror` together with the eventual fallback outcome. -/
inductive Terminal where
  | complete (r : ResultPayload)
  | appError (m : Str)
  | transportErr (out : FallbackOutcome)

/-- Process a terminal outcome through the corresponding handler, returning
the stream state, the app state, and the fallback requests issued. -/
def runTerminal (now : Nat) (loc : Option Location) (t : Terminal)
    (p : StreamState × AppState) : StreamState × AppState × List FallbackRequest :=
  match t with
  | .complete r =>
    let q := onmessageEvent now (.complete r) p.1 p.2
    (q.1, q.2, [])
  | .appError m =>
    let q := onmessageEvent now (.error m) p.1 p.2
    (q.1, q.2, [])
  | .transportErr out => onerrorEvent now out loc p.1 p.2

/-- The concrete `complete` payload of end-to-end scenario A:
`{answer:"根据政策，补贴比例为10%。", confidence:0.92,
sources:[{source:"细则.pdf", similarity:0.95}]}`. -/
def payload92 : ResultPayload :=
  { answer := "根据政策，补贴比例为10%。".toList,
    confidence := some (mkRat 92 100),
    sources := some [{ source := "细则.pdf".toList, similarity := some (mkRat 95 100) }] }

end IntelliPolicy

namespace IntelliPolicy

/-- Sanity of the computable rounding: `roundPermille q` is exactly
`⌊1000 * q + 1/2⌋`, i.e. `Math.round(q * 1000)` (JS rounds half toward +∞). -/
theorem roundPermille_eq_floor (q : ℚ) : roundPermille q = ⌊1000 * q + 1/2⌋ := by
  have hden : ((q.den : ℚ)) ≠ 0 := by exact_mod_cast q.den_ne_zero
  have h : (1000 * q + 1/2 : ℚ)
      = (((2000 * q.num + (q.den : ℤ)) : ℤ) : ℚ) / (((2 * q.den : ℕ)) : ℚ) := by
    have hq : (q.num : ℚ) = q * (q.den : ℚ) := (div_eq_iff hden).mp (Rat.num_div_den q)
    push_cast
    field_simp
    rw [hq]
    ring
  rw [h, Rat.floor_intCast_div_natCast, roundPermille]
  push_cast
  rfl

/-- Closed form for delivering a list of `chunk` events to one stream: the
flags, the accumulator and the typing buffer after the whole list. -/
theorem deliverChunks_eq (cs : List Str) (ss : StreamState) (app : AppState) :
    deliverChunks cs (ss, app) =
      ({ ss with hasReceivedData := ss.hasReceivedData || !cs.isEmpty,
                 accumulatedText := ss.accumulatedText ++ cs.flatten },
       if cs.isEmpty then app
       else { app with typingMessage := ss.accumulatedText ++ cs.flatten, isTyping := true }) := by
  induction cs generalizing ss app with
  | nil => simp [deliverChunks]
  | cons c rest ih =>
    rw [deliverChunks]
    show deliverChunks rest (onmessageEvent 0 (.chunk c) ss app) = _
    rw [onmessageEvent]
    rw [ih]
    cases rest with
    | nil => simp [List.flatten]
    | cons d ds => simp [List.flatten, List.append_assoc]

end IntelliPolicy

namespace IntelliPolicy

/-- `charAt` agrees with `Option.toList` of positional lookup. -/
theorem charAt_eq_toList (s : Str) (i : Nat) : charAt s i = (s.get? i).toList := by
  unfold charAt
  cases s.get? i <;> rfl

/-- Ticking distributes to the outside of `tickN`. -/
theorem tickN_succ_right (k : Nat) (app : AppState) :
    tickN (k + 1) app = typingTick (tickN k app) := by
  induction k generalizing app with
  | zero => rfl
  | succ k ih =>
    show tickN (k + 1) (typingTick app) = _
    rw [ih]
    rfl

/-- Closed form for the typewriter: `k ≤ length` ticks after
`typeMessage m` leave the interval armed on `m`, the index at `k`, and the
revealed buffer at exactly the first `k` characters of `m`. -/
theorem tickN_typeMessage (m : Str) (app : AppState) (k : Nat) (hk : k ≤ m.length) :
    tickN k (typeMessage m app) =
      { app with isTyping := true, typingMessage := m.take k, typingIndex := k,
                 typingTimer := some m } := by
  induction k with
  | zero => simp [tickN, typeMessage, clearTyping]
  | succ k ih =>
    have hk' : k ≤ m.length := Nat.le_of_succ_le hk
    rw [tickN_succ_right, ih hk']
    have hlt : k < m.length := Nat.lt_of_succ_le hk
    simp only [typingTick, hlt, if_pos]
    rw [charAt_eq_toList]
    have : m.take (k + 1) = m.take k ++ (m.get? k).toList := by
      simp [List.take_succ]
    rw [this]

end IntelliPolicy

namespace IntelliPolicy

/-- Once stream `sid = 0` is closed, any further occurrence addressed to it
(an `onmessage` delivery or a transport error) leaves the world unchanged: a
closed `EventSource` delivers nothing. -/
theorem run_stream0_closed (w : World) (acts : List Action) (ss : StreamState)
    (hss : w.streams[0]? = some ss) (hclosed : ss.closed = true)
    (hacts : ∀ a ∈ acts, (∃ ev, a = Action.deliver 0 ev) ∨ ∃ o, a = Action.transportError 0 o) :
    run w acts = w := by
  induction acts with
  | nil => rfl
  | cons a rest ih =>
    have hstep : step w a = w := by
      rcases hacts a (List.mem_cons_self a rest) with ⟨ev, rfl⟩ | ⟨o, rfl⟩ <;>
        simp [step, hss, hclosed]
    show run (step w a) rest = w
    rw [hstep]
    exact ih (fun a ha => hacts a (List.mem_cons_of_mem _ ha))

end IntelliPolicy


namespace IntelliPolicy

/-- C5: on a `complete` event the channel is closed, the typewriter is
cancelled (interval cleared, flag down, buffer emptied, index reset), and the
appended assistant message's text is the composition of the payload's answer,
the confidence as a percentage rounded to 1 decimal, and at most the first 2
sources with name and similarity percentage; on the concrete scenario-A
payload (answer "根据政策，补贴比例为10%。", confidence 0.92, one source
"细则.pdf" with similarity 0.95) the final text contains the answer, "92%",
"细则.pdf" and "95%". -/
theorem complete_closes_and_composes (now : Nat) (r : ResultPayload)
    (ss : StreamState) (app : AppState) :
    (onmessageEvent now (.complete r) ss app).1.closed = true
    ∧ (onmessageEvent now (.complete r) ss app).1.isCompleted = true
    ∧ (onmessageEvent now (.complete r) ss app).2.isTyping = false
    ∧ (onmessageEvent now (.complete r) ss app).2.typingMessage = []
    ∧ (onmessageEvent now (.complete r) ss app).2.typingTimer = none
    ∧ (onmessageEvent now (.complete r) ss app).2.messages
        = app.messages ++ [⟨now + 1, Role.bot, composeReply r⟩]
    ∧ "根据政策，补贴比例为10%。".toList <:+: composeReply payload92
    ∧ "92%".toList <:+: composeReply payload92
    ∧ "细则.pdf".toList <:+: composeReply payload92
    ∧ "95%".toList <:+: composeReply payload92 := by
  refine ⟨rfl, rfl, rfl, rfl, rfl, rfl, ?_, ?_, ?_, ?_⟩ <;> decide

/-- C6 counterexample: immediately after a single `chunk` event (zero elapsed
typewriter ticks) the whole 4-character chunk text is already displayed, no
typewriter interval is armed, the reveal index is untouched, and a further
tick changes nothing — the reveal is not restarted from offset 0 at one
character per tick. -/
theorem chunk_displays_all_at_once :
    (run (initWorld "助手".toList none)
        [.send "问C6".toList, .deliver 0 (.chunk "你好世界".toList)]).app.typingMessage.length = 4
    ∧ (run (initWorld "助手".toList none)
        [.send "问C6".toList, .deliver 0 (.chunk "你好世界".toList)]).app.typingTimer = none
    ∧ (run (initWorld "助手".toList none)
        [.send "问C6".toList, .deliver 0 (.chunk "你好世界".toList)]).app.typingIndex = 0
    ∧ (run (initWorld "助手".toList none)
        [.send "问C6".toList, .deliver 0 (.chunk "你好世界".toList), .tick]).app.typingMessage
        = "你好世界".toList := by
  refine ⟨?_, ?_, ?_, ?_⟩ <;> decide

/-- C6 (amended): a `chunk` event appends to the accumulator and displays the
whole updated running text at once (`setTypingMessage(accumulatedText)`,
`setIsTyping(true)`); it does not call `typeMessage`, so the typewriter
interval and index are left untouched — the code comments this as a deliberate
optimisation. -/
theorem chunk_event_semantics (now : Nat) (c : Str) (ss : StreamState) (app : AppState) :
    onmessageEvent now (.chunk c) ss app
      = ({ ss with hasReceivedData := true,
                   accumulatedText := ss.accumulatedText ++ c },
         { app with typingMessage := ss.accumulatedText ++ c, isTyping := true }) := rfl

/-- C7: started on text `m` of length `L` by `typeMessage`, after any `k ≤ L`
interval firings the revealed buffer is exactly the first `k` characters of
`m` — an initial segment of `m` of length `k ≤ L` — each further tick before
completion appends exactly `charAt m k`, and after `L` ticks (absent any
`clearTyping` or newer `typeMessage`) the whole of `m` is revealed. -/
theorem typewriter_reveal_invariant (m : Str) (app : AppState) (k : Nat)
    (hk : k ≤ m.length) :
    (tickN k (typeMessage m app)).typingMessage = m.take k
    ∧ (tickN k (typeMessage m app)).typingMessage <+: m
    ∧ (tickN k (typeMessage m app)).typingMessage.length = k
    ∧ (k < m.length →
        (tickN (k + 1) (typeMessage m app)).typingMessage
          = (tickN k (typeMessage m app)).typingMessage ++ charAt m k)
    ∧ (tickN m.length (typeMessage m app)).typingMessage = m := by
  have h := tickN_typeMessage m app k hk
  refine ⟨by rw [h], ?_, ?_, ?_, ?_⟩
  · rw [h]
    exact ⟨m.drop k, List.take_append_drop k m⟩
  · rw [h]
    simp [List.length_take, Nat.min_eq_left hk]
  · intro hlt
    rw [h, tickN_typeMessage m app (k + 1) hlt, charAt_eq_toList]
    simp [List.take_succ]
  · rw [tickN_typeMessage m app m.length (Nat.le_refl _)]
    simp

/-- C7 witness: the invariant evaluated on "你好呀" after 2 of 3 ticks. -/
theorem typewriter_reveal_invariant_witness :
    2 ≤ ("你好呀".toList : Str).length
    ∧ ((tickN 2 (typeMessage "你好呀".toList (initWorld [] none).app)).typingMessage
        = ("你好呀".toList : Str).take 2
      ∧ (tickN 2 (typeMessage "你好呀".toList (initWorld [] none).app)).typingMessage
          <+: "你好呀".toList
      ∧ (tickN 2 (typeMessage "你好呀".toList (initWorld [] none).app)).typingMessage.length = 2
      ∧ (2 < ("你好呀".toList : Str).length →
          (tickN 3 (typeMessage "你好呀".toList (initWorld [] none).app)).typingMessage
            = (tickN 2 (typeMessage "你好呀".toList (initWorld [] none).app)).typingMessage
              ++ charAt "你好呀".toList 2)
      ∧ (tickN ("你好呀".toList : Str).length
            (typeMessage "你好呀".toList (initWorld [] none).app)).typingMessage
          = "你好呀".toList) :=
  ⟨by decide, typewriter_reveal_invariant "你好呀".toList (initWorld [] none).app 2 (by decide)⟩

/-- C8: after the `i`-th of the chunk events `c1..cn` delivered to one fresh
stream, the accumulated text — and, once at least one chunk arrived, the
displayed reveal target — is the order-preserving concatenation `c1+…+ci`. -/
theorem chunk_concat_law (q : Str) (app : AppState) (cs : List Str) (i : Nat)
    (hi : i ≤ cs.length) :
    (deliverChunks (cs.take i) (newStream q, app)).1.accumulatedText
      = (cs.take i).flatten
    ∧ (0 < i →
        (deliverChunks (cs.take i) (newStream q, app)).2.typingMessage
          = (cs.take i).flatten) := by
  rw [deliverChunks_eq]
  constructor
  · simp [newStream]
  · intro hpos
    obtain ⟨c, t, rfl⟩ : ∃ c t, cs = c :: t := by
      cases cs with
      | nil => simp at hi; omega
      | cons c t => exact ⟨c, t, rfl⟩
    obtain ⟨j, rfl⟩ : ∃ j, i = j + 1 := ⟨i - 1, by omega⟩
    simp [newStream]

/-- C8 witness: the concatenation law on the two scenario-A chunks. -/
theorem chunk_concat_law_witness :
    2 ≤ ([("根据政策，".toList : Str), "补贴比例为10%。".toList] : List Str).length
    ∧ ((deliverChunks ([("根据政策，".toList : Str), "补贴比例为10%。".toList].take 2)
          (newStream "问".toList, (initWorld [] none).app)).1.accumulatedText
        = ([("根据政策，".toList : Str), "补贴比例为10%。".toList].take 2).flatten
      ∧ (0 < 2 →
          (deliverChunks ([("根据政策，".toList : Str), "补贴比例为10%。".toList].take 2)
            (newStream "问".toList, (initWorld [] none).app)).2.typingMessage
            = ([("根据政策，".toList : Str), "补贴比例为10%。".toList].take 2).flatten)) :=
  ⟨by decide,
   chunk_concat_law "问".toList (initWorld [] none).app
     [("根据政策，".toList : Str), "补贴比例为10%。".toList] 2 (by decide)⟩

/-- C9: once `isCompleted` is set (a `complete` or application-level `error`
frame was processed), a later transport-level `onerror` callback for the same
stream only closes the event source: the app state (transcript, typewriter,
thinking indicator) is returned unchanged and no fallback request is issued. -/
theorem completed_onerror_noop (now : Nat) (out : FallbackOutcome) (loc : Option Location)
    (ss : StreamState) (app : AppState) (h : ss.isCompleted = true) :
    onerrorEvent now out loc ss app = ({ ss with closed := true }, app, []) := by
  simp [onerrorEvent, h]

/-- C9 witness: the no-op evaluated on a completed stream state. -/
theorem completed_onerror_noop_witness :
    (⟨"问".toList, true, true, "答".toList, false⟩ : StreamState).isCompleted = true
    ∧ onerrorEvent 7 .failure none ⟨"问".toList, true, true, "答".toList, false⟩
        (initWorld "迎".toList none).app
      = (⟨"问".toList, true, true, "答".toList, true⟩, (initWorld "迎".toList none).app, []) :=
  ⟨rfl, completed_onerror_noop 7 .failure none ⟨"问".toList, true, true, "答".toList, false⟩
    (initWorld "迎".toList none).app rfl⟩

end IntelliPolicy

namespace IntelliPolicy

/-- C10: a falsy (absent/null) confidence or similarity is coalesced to 0
before rounding and rendered as "0%", identically on the streaming-complete
composition and on the fallback composition, and the message is still
appended normally on `complete` rather than treated as malformed. -/
theorem falsy_confidence_zero_percent (r : ResultPayload) (s : SourceItem) (i now : Nat)
    (ss : StreamState) (app : AppState)
    (hc : r.confidence = none) (hs : s.similarity = none) :
    composeReply r = r.answer ++ "\n\n置信度: 0%".toList ++ sourcesText r.sources
    ∧ fallbackReply r = r.answer ++ "\n\n置信度: 0%".toList ++ fallbackSourcesText r.sources
    ∧ sourceLine i s = natToStr (i + 1) ++ ". ".toList ++ s.source ++ " (相关度: 0%)".toList
    ∧ fallbackSourceLine i s
        = natToStr (i + 1) ++ ". ".toList ++ s.source ++ " (相关度: 0%)".toList
    ∧ (onmessageEvent now (.complete r) ss app).2.messages
        = app.messages ++ [⟨now + 1, Role.bot, composeReply r⟩] := by
  have h0 : formatTenths (confidenceTenths none) = ['0'] := by decide
  have h0' : formatTenths (roundPermille ((none : Option ℚ).getD 0)) = ['0'] := by decide
  have hsplit : ("\n\n置信度: 0%".toList : Str)
      = "\n\n置信度: ".toList ++ (['0'] ++ ['%']) := by decide
  have hsplit2 : (" (相关度: 0%)".toList : Str)
      = " (相关度: ".toList ++ (['0'] ++ "%)".toList) := by decide
  refine ⟨?_, ?_, ?_, ?_, rfl⟩
  · simp only [composeReply, hc, h0, hsplit]
    simp [List.append_assoc]
  · simp only [fallbackReply, hc, h0, hsplit]
    simp [List.append_assoc]
  · simp only [sourceLine, hs, h0', hsplit2]
    simp [List.append_assoc]
  · simp only [fallbackSourceLine, hs, h0', hsplit2]
    simp [List.append_assoc]

/-- C10 witness: the zero-percent rendering on a payload with no confidence. -/
theorem falsy_confidence_zero_percent_witness :
    composeReply ⟨"答案".toList, none, none⟩
      = "答案".toList ++ "\n\n置信度: 0%".toList ++ sourcesText none :=
  (falsy_confidence_zero_percent ⟨"答案".toList, none, none⟩ ⟨"来源".toList, none⟩ 0 3
    (newStream "问".toList) (initWorld [] none).app rfl rfl).1

/-- C1 (the code at the failing input): submit query A, then query B while
A's stream is still open; A's stream stays open and ungated — a chunk event
for A then overwrites the shared typewriter buffer, and a complete event for
A appends an assistant message to the transcript, after B has started. There
is no generation counter anywhere in `handleSend`. -/
theorem stale_stream_mutates_after_new_query :
    (run (initWorld "助手".toList none)
        [.send "问A".toList, .send "问B".toList]).app.typingMessage = []
    ∧ (run (initWorld "助手".toList none)
        [.send "问A".toList, .send "问B".toList]).streams.length = 2
    ∧ ((run (initWorld "助手".toList none)
        [.send "问A".toList, .send "问B".toList]).streams.map StreamState.closed) = [false, false]
    ∧ (run (initWorld "助手".toList none)
        [.send "问A".toList, .send "问B".toList,
         .deliver 0 (.chunk "A的输出".toList)]).app.typingMessage = "A的输出".toList
    ∧ (run (initWorld "助手".toList none)
        [.send "问A".toList, .send "问B".toList,
         .deliver 0 (.complete ⟨"A的答案".toList, some (mkRat 1 2), none⟩)]).app.messages.length
      = 4 := by
  refine ⟨?_, ?_, ?_, ?_, ?_⟩ <;> decide

/-- C2 counterexample: a query that reached a terminal outcome (transport
failure after one chunk was received) appended zero assistant messages — the
only bot-role message in the transcript is still the initial greeting. -/
theorem transport_error_after_chunk_appends_no_reply :
    ((run (initWorld "欢迎使用".toList none)
        [.send "查询补贴".toList, .deliver 0 (.chunk "部分回答".toList),
         .transportError 0 .failure]).app.messages.filter
        (fun m => m.role == Role.bot)).length = 1 := by decide

/-- C2 (amended): the `complete`, application-`error` and no-data fallback
terminal paths append exactly one assistant message, and every appended
message has the bot role; but a transport failure arriving after at least one
received event appends none. -/
theorem replies_per_terminal_outcome (q : Str) (cs : List Str) (t : Terminal)
    (now : Nat) (loc : Option Location) (app : AppState) :
    (runTerminal now loc t (deliverChunks cs (newStream q, app))).2.1.messages.length
      = app.messages.length
        + (match t with
           | .transportErr _ => if cs.isEmpty then 1 else 0
           | _ => 1)
    ∧ ∀ m ∈ (runTerminal now loc t (deliverChunks cs (newStream q, app))).2.1.messages.drop
          app.messages.length, m.role = Role.bot := by
  rw [deliverChunks_eq]
  cases t with
  | complete r =>
    by_cases h : cs.isEmpty <;>
      simp [runTerminal, onmessageEvent, clearTyping, newStream, h, List.drop_left]
  | appError m =>
    by_cases h : cs.isEmpty <;>
      simp [runTerminal, onmessageEvent, clearTyping, newStream, h, List.drop_left]
  | transportErr out =>
    by_cases h : cs.isEmpty <;> cases out <;>
      simp [runTerminal, onerrorEvent, clearTyping, newStream, h, List.drop_left]

/-- C3 counterexample: an application-level `error` event arriving before any
chunk does not invoke the fallback at all (zero POSTs, not one); the code
instead appends the backend's error text as the assistant message. -/
theorem app_error_event_triggers_no_fallback :
    (run (initWorld "您好".toList none)
        [.send "问题".toList, .deliver 0 (.error "后端错误".toList)]).fallbackRequests = []
    ∧ ((run (initWorld "您好".toList none)
        [.send "问题".toList, .deliver 0 (.error "后端错误".toList)]).app.messages.map Msg.text)
      = ["您好".toList, "问题".toList, "错误: 后端错误".toList] := by
  refine ⟨?_, ?_⟩ <;> decide

/-- C3 (amended): a transport-level stream failure before any received event
issues the fallback POST — carrying the same question and the cached location
— exactly once; the stream is closed by the handler, so no further delivery
or transport error for that stream can issue a duplicate. (An
application-level `error` frame never triggers the fallback, see the
counterexample.) -/
theorem transport_error_fallback_exactly_once (greeting q : Str) (loc : Option Location)
    (out : FallbackOutcome) (acts : List Action)
    (hq : (trim q).isEmpty = false)
    (hacts : ∀ a ∈ acts, (∃ ev, a = Action.deliver 0 ev) ∨ ∃ o, a = Action.transportError 0 o) :
    (run (run (initWorld greeting loc) [.send q, .transportError 0 out]) acts).fallbackRequests
      = [{ question := q, return_sources := true, location := loc }] := by
  have hrun : run (initWorld greeting loc) [.send q, .transportError 0 out]
      = { app := { messages := [⟨1, Role.bot, greeting⟩, ⟨2, Role.user, q⟩,
                     ⟨5, Role.bot, match out with
                        | .success data => fallbackReply data
                        | .failure => unavailableText⟩],
                   input := [], isThinking := false, typingMessage := [], isTyping := false,
                   typingIndex := 0, typingTimer := none },
          location := loc,
          streams := [{ question := q, hasReceivedData := false, isCompleted := false,
                        accumulatedText := [], closed := true }],
          fallbackRequests := [{ question := q, return_sources := true, location := loc }],
          time := 6 } := by
    cases out <;>
      simp [run, step, handleSend, initWorld, hq, onerrorEvent, newStream, clearTyping]
  rw [hrun]
  refine (congrArg World.fallbackRequests
    (run_stream0_closed _ acts ⟨q, false, false, [], true⟩ ?_ ?_ hacts)).trans ?_
  · rfl
  · rfl
  · rfl

/-- C3 witness: the single fallback request evaluated on a concrete query,
with one further transport error delivered for the same stream. -/
theorem transport_error_fallback_exactly_once_witness :
    (trim "补贴政策".toList).isEmpty = false
    ∧ (run (run (initWorld "迎".toList none) [.send "补贴政策".toList, .transportError 0 .failure])
        [.transportError 0 .failure]).fallbackRequests
      = [{ question := "补贴政策".toList, return_sources := true, location := none }] :=
  ⟨by decide,
   transport_error_fallback_exactly_once "迎".toList "补贴政策".toList none .failure
     [.transportError 0 .failure] (by decide)
     (by intro a ha
         simp only [List.mem_singleton] at ha
         subst ha
         exact Or.inr ⟨.failure, rfl⟩)⟩

/-- C4 counterexample: when the transport fails after one chunk was received,
the transcript still holds only the greeting and the user message — no
generic-failure assistant message is appended (the thinking indicator is
ended and no fallback is made). -/
theorem chunk_then_transport_error_no_notice :
    (run (initWorld "您好，有什么可以帮您？".toList none)
        [.send "问题C".toList, .deliver 0 (.chunk "根据".toList),
         .transportError 0 .failure]).app.messages
      = [⟨1, Role.bot, "您好，有什么可以帮您？".toList⟩, ⟨2, Role.user, "问题C".toList⟩]
    ∧ (run (initWorld "您好，有什么可以帮您？".toList none)
        [.send "问题C".toList, .deliver 0 (.chunk "根据".toList),
         .transportError 0 .failure]).app.isThinking = false
    ∧ (run (initWorld "您好，有什么可以帮您？".toList none)
        [.send "问题C".toList, .deliver 0 (.chunk "根据".toList),
         .transportError 0 .failure]).fallbackRequests = [] := by
  refine ⟨?_, ?_, ?_⟩ <;> decide

/-- C4 (amended): if the transport fails after data was received and before
completion, the handler closes the source, ends the thinking indicator,
appends no message and issues no fallback request. -/
theorem transport_error_after_data_semantics (now : Nat) (out : FallbackOutcome)
    (loc : Option Location) (ss : StreamState) (app : AppState)
    (hdata : ss.hasReceivedData = true) (hnc : ss.isCompleted = false) :
    onerrorEvent now out loc ss app
      = ({ ss with closed := true }, { app with isThinking := false }, []) := by
  simp [onerrorEvent, hdata, hnc]

/-- C4 amended-claim witness: evaluated on a stream that has received data. -/
theorem transport_error_after_data_semantics_witness :
    (⟨"问".toList, true, false, "根据".toList, false⟩ : StreamState).hasReceivedData = true
    ∧ onerrorEvent 9 .failure none ⟨"问".toList, true, false, "根据".toList, false⟩
        (initWorld "迎迎".toList none).app
      = (⟨"问".toList, true, false, "根据".toList, true⟩,
         { (initWorld "迎迎".toList none).app with isThinking := false }, []) :=
  ⟨rfl, transport_error_after_data_semantics 9 .failure none
    ⟨"问".toList, true, false, "根据".toList, false⟩ (initWorld "迎迎".toList none).app rfl rfl⟩

end IntelliPolicy

namespace IntelliPolicy

/-- C2 amended-claim witness: one chunk followed by an application-level
error appends exactly one assistant message after the initial transcript. -/
theorem replies_per_terminal_outcome_witness :
    (runTerminal 4 none (.appError "糟".toList)
        (deliverChunks [("片".toList : Str)]
          (newStream "问W".toList, (initWorld "迎".toList none).app))).2.1.messages.length
      = (initWorld "迎".toList none).app.messages.length + 1
    ∧ ∀ m ∈ (runTerminal 4 none (.appError "糟".toList)
        (deliverChunks [("片".toList : Str)]
          (newStream "问W".toList, (initWorld "迎".toList none).app))).2.1.messages.drop
          (initWorld "迎".toList none).app.messages.length, m.role = Role.bot :=
  replies_per_terminal_outcome "问W".toList [("片".toList : Str)] (.appError "糟".toList) 4 none
    (initWorld "迎".toList none).app

end IntelliPolicy
